import Mathlib

/-!
Shallow embedding of the AI-powered government feedback routing system
(`ai/logic.py`, `core_support/logic.py` and the Django models they use).

Conventions of the embedding:
* Python strings are Lean `String`s; `str.lower` is embedded as the ASCII
  case mapping (`Char.toLower`), which is exact on every character the
  flagged patterns and the script tests inspect.
* Machine floats (similarity scores, embedding components, confidence)
  are embedded as `ℚ`; no claim depends on float rounding.
* Database rows are records in an explicit `DB` value; Django
  `objects.get`/`filter` become `List.find?`/`List.filter` over it.
* Network boundaries (Gemini embedding + generation, Qdrant search) are
  oracles carried in an `Env` record; each call site consumes the oracle
  exactly the way the Python call site consumes the client response.
* Side effects (rows created, external calls issued) are returned in an
  explicit `Trace` so that theorems can speak about "stage X was never
  called" and "exactly one record was written".
-/

namespace GovRouting

/-- Embedding of Python `str.lower` (ASCII case mapping). -/
def lowerStr (s : String) : String := String.mk (s.toList.map Char.toLower)

/-- Embedding of Python `str.strip()`: drop whitespace from both ends. -/
def pyStrip (s : String) : String :=
  String.mk (((s.toList.dropWhile Char.isWhitespace).reverse.dropWhile
    Char.isWhitespace).reverse)

/-- Does `s` start with `pat`? (helper for Python's `pat in s`). -/
def startsWithPat : List Char → List Char → Bool
  | [], _ => true
  | _ :: _, [] => false
  | p :: ps, c :: cs => p == c && startsWithPat ps cs

/-- Embedding of Python's substring containment `pat in s`. -/
def hasSubstr (pat : List Char) : List Char → Bool
  | [] => pat.isEmpty
  | c :: cs => startsWithPat pat (c :: cs) || hasSubstr pat cs

/-- The character test of `detect_language`'s Latin branch:
`'a' <= char.lower() <= 'z'`. -/
def isLatinChar (c : Char) : Bool := 'a' ≤ c.toLower && c.toLower ≤ 'z'

/-- The character test of `detect_language`'s Cyrillic branch:
`'Ѐ' <= char <= 'ӿ'`. -/
def isCyrillicChar (c : Char) : Bool := 'Ѐ' ≤ c && c ≤ 'ӿ'

/-- One step of `detect_language`'s scanning loop over `(has_latin, has_cyrillic)`. -/
def scanStep (st : Bool × Bool) (c : Char) : Bool × Bool :=
  if isLatinChar c then (true, st.2)
  else if isCyrillicChar c then (st.1, true)
  else st

/-- Source `ai/logic.py, detect_language`: script-based language detection.
Latin → `'uz'`, Cyrillic → `'ru'`, neither → `None`. -/
def detect_language (text : String) : Option String :=
  let st := text.toList.foldl scanStep (false, false)
  if st.1 && !st.2 then some "uz"
  else if st.2 then some "ru"
  else none

/-- Source `ai/logic.py, injection_detector`: the fixed list of flagged substrings. -/
def suspicious_patterns : List String :=
  ["ignore previous instructions", "system prompt", "delete all"]

/-- Source `ai/logic.py, injection_detector`: flags the text when the lower-cased
text contains one of the lower-cased flagged substrings. -/
def injection_detector (text : String) : Bool :=
  suspicious_patterns.any fun pattern =>
    hasSubstr (lowerStr pattern).toList (lowerStr text).toList

/-- Outcome of one `client.models.embed_content` call, as `get_embedding`
discriminates it: a response with a non-empty `embeddings` list, a response
with an empty one, an exception whose text contains `"429"`, or any other
exception. -/
inductive EmbedOutcome where
  | success (values : List ℚ)
  | emptyResponse
  | rateLimit
  | otherError
deriving DecidableEq

/-- The degraded output `[0.0] * 768` of `get_embedding`. -/
def zeroVector : List ℚ := List.replicate 768 0

/-- The retry loop of `ai/logic.py, get_embedding`: `remaining` attempts are
left and `attempt` is the 0-based index of the next one. Returns the vector
together with the list of back-off sleeps (in seconds) performed, in order.
On a rate-limit failure the code sleeps `20 * (attempt + 1)` seconds and
retries; on any other exception or an empty response it returns the zero
vector at once; exhausting all attempts also yields the zero vector. -/
def get_embedding_from (svc : Nat → EmbedOutcome) : Nat → Nat → List ℚ × List Nat
  | 0, _ => (zeroVector, [])
  | remaining + 1, attempt =>
    match svc attempt with
    | .success values => (values, [])
    | .emptyResponse => (zeroVector, [])
    | .otherError => (zeroVector, [])
    | .rateLimit =>
      let wait_time := 20 * (attempt + 1)
      let rest := get_embedding_from svc remaining (attempt + 1)
      (rest.1, wait_time :: rest.2)

/-- Source `ai/logic.py, get_embedding`: `retries = 5; for attempt in range(retries)`. -/
def get_embedding (svc : Nat → EmbedOutcome) : List ℚ × List Nat :=
  get_embedding_from svc 5 0

/-! ## Data model (Django rows used by the pipeline) -/

/-- Source `messages_core/models.py, MessageContent` (the fields the pipeline reads). -/
structure MessageContent where
  content_type : String
  text : Option String
deriving DecidableEq

/-- Source `messages_core/models.py, Message` (the fields the pipeline reads);
`contents` is the reverse relation `message.contents`. -/
structure Message where
  message_uuid : Nat
  session_uuid : Nat
  contents : List MessageContent
deriving DecidableEq

/-- Source `messages_core/models.py, Session`: `assigned_department` holds the id of
the assigned `Department`, if any. -/
structure Session where
  session_uuid : Nat
  assigned_department : Option Nat
deriving DecidableEq

/-- Source `departments/models.py, Department` (the fields the claims touch;
`id` is the `BigAutoField` primary key). -/
structure Department where
  id : Nat
  is_active : Bool
  is_deleted : Bool
deriving DecidableEq

/-- The relational state the pipeline reads and writes. -/
structure DB where
  sessions : List Session
  messages : List Message
  departments : List Department
deriving DecidableEq

/-- One candidate dict built by `search_vector_db` from a Qdrant hit:
`{"name": ..., "score": ..., "description": ..., "id": ...}` (the payload
fields are `payload.get` results, hence optional). -/
structure Candidate where
  name : Option String
  score : ℚ
  description : Option String
  id : Option Int
deriving DecidableEq

/-- Source `ai/models.py, InjectResult` (fields set at its single creation site). -/
structure InjectResult where
  message_uuid : Nat
  is_injection : Bool
  details_text_length : Nat
deriving DecidableEq

/-- Source `ai/models.py, AIResult` (the fields set at the creation sites in
`process_message`; a field a `create` call omits is stored as null). -/
structure AIResult where
  session_uuid : Nat
  message_uuid : Nat
  is_injection : Bool
  message_type : Option String := none
  routing_confidence : Option ℚ := none
  suggested_department_name : Option String := none
  suggested_department_id : Option Int := none
  reason : Option String := none
  explanation : Option String := none
  vector_similarity_score : Option ℚ := none
  vector_top_candidates : Option (List Candidate) := none
  message_raw_embedding : Option (List ℚ) := none
  process_duration_ms : Option Nat := none
deriving DecidableEq

/-! ## External boundaries -/

/-- Outcome of one Qdrant `query_points` call: a hit list (already mapped to
candidate dicts) or an exception. -/
inductive SearchOutcome where
  | ok (hits : List Candidate)
  | error
deriving DecidableEq

/-- The structured reasoner output `analyze_message_with_gemini` yields: a
JSON dict read with `.get`, hence a record of optional fields. A failed or
unparseable call yields `{}`, i.e. every field `none`. -/
structure Analysis where
  message_type : Option String := none
  routing_confidence : Option ℚ := none
  suggested_department_name : Option String := none
  suggested_department_id : Option Int := none
  reason : Option String := none
  explanation : Option String := none
deriving DecidableEq

/-- The external world of one `process_message` run: the embedding service
(per 0-based attempt index), the vector index (per query vector and filter)
and the reasoner (per text and candidate list), plus the measured wall-clock
duration stamped into the record. -/
structure Env where
  embedSvc : Nat → EmbedOutcome
  searchEnv : List ℚ → Option String → SearchOutcome
  gemini : String → List Candidate → Analysis
  duration_ms : Nat

/-- Side effects of one run: rows created and external stages invoked.
`searchCalls` records, in order, the `(vector, filter, limit)` of each
Qdrant query; `routerCalls` the `(department_id, message_uuid)` of each
`message_router` invocation. -/
structure Trace where
  injectResults : List InjectResult := []
  aiResults : List AIResult := []
  embedCalls : Nat := 0
  geminiCalls : Nat := 0
  searchCalls : List (List ℚ × Option String × Nat) := []
  routerCalls : List (Nat × Nat) := []
deriving DecidableEq

/-- What one `process_message` invocation does for its caller: return a
value (`None` or the created record), or let an exception escape. The one
exception no pipeline path catches is the `AttributeError` raised by
`message_router`'s `department.name_en` dereference, so every run that
dispatches raises instead of returning. -/
inductive RunOutcome where
  | ret (value : Option AIResult)
  | attributeError
deriving DecidableEq

/-! ## search_vector_db -/

/-- The `limit=3` passed to `query_points` (spec: top-K = 3). -/
def search_limit : Nat := 3

/-- The `query_filter` built in `search_vector_db`: a language filter when
`language` is truthy (`if language:`), otherwise no filter. -/
def mkFilter : Option String → Option String
  | none => none
  | some l => if l == "" then none else some l

/-- Source `ai/logic.py, search_vector_db`: queries Qdrant with the vector, the
filter and `limit=3`; on any exception returns `[]`. Returns the candidate
list together with the `(vector, filter, limit)` record of the call made. -/
def search_vector_db (env : List ℚ → Option String → SearchOutcome)
    (vector : List ℚ) (language : Option String) :
    List Candidate × (List ℚ × Option String × Nat) :=
  let callRec := (vector, mkFilter language, search_limit)
  match env vector (mkFilter language) with
  | .ok hits => (hits, callRec)
  | .error => ([], callRec)

/-! ## message_router (the Dispatcher) -/

/-- Source `core_support/logic.py, message_router`: looks up the message and the
department (any `DoesNotExist` aborts the invocation with no state change),
then unconditionally sets the session's `assigned_department` and saves.
Directly after the save the code dereferences `department.name_en` — a
field the `Department` model does not define — so every invocation that
passes both lookups raises `AttributeError` *after* committing the
assignment and never returns normally; the notification fan-out below that
line is dead code. Returns the committed state together with whether the
lookups succeeded — equivalently, whether the invocation goes on to raise
instead of returning. -/
def message_router (db : DB) (department_id : Nat) (message_uuid : Nat) :
    DB × Bool :=
  match db.messages.find? (fun m => m.message_uuid == message_uuid) with
  | none => (db, false)
  | some message =>
    match db.departments.find? (fun d => d.id == department_id) with
    | none => (db, false)
    | some department =>
      let sessions := db.sessions.map fun s =>
        if s.session_uuid == message.session_uuid then
          { s with assigned_department := some department.id }
        else s
      ({ db with sessions := sessions }, true)

/-! ## process_message (the pipeline) -/

/-- The text-extraction loop of `process_message`: concatenate the `text` of
every content with `content_type == 'text'` and truthy text, space-joined,
then `strip()`. -/
def extract_text (contents : List MessageContent) : String :=
  pyStrip (contents.foldl (fun acc c =>
      match c.text with
      | some t => if c.content_type == "text" && !(t == "") then acc ++ t ++ " " else acc
      | none => acc) "")

/-- Python `str(x)` for an optional string (an f-string renders `None` as
`"None"`). -/
def pyShow : Option String → String
  | none => "None"
  | some s => s

/-- Stage 2 of `process_message`: `vector = get_embedding(text)`. -/
def pipeline_vector (env : Env) : List ℚ := (get_embedding env.embedSvc).1

/-- Stage 3 of `process_message`: the language-filtered search, then — only
when it returned no candidates — one unfiltered retry over the same vector. -/
def pipeline_candidates (env : Env) (vector : List ℚ) (language : String) :
    List Candidate :=
  let first := (search_vector_db env.searchEnv vector (some language)).1
  if first.isEmpty then (search_vector_db env.searchEnv vector none).1 else first

/-- The search invocations stage 3 issues, in order. -/
def pipeline_search_calls (env : Env) (vector : List ℚ) (language : String) :
    List (List ℚ × Option String × Nat) :=
  let first := search_vector_db env.searchEnv vector (some language)
  if first.1.isEmpty then [first.2, (search_vector_db env.searchEnv vector none).2]
  else [first.2]

/-- Stage 5's department resolution: `if suggested_dept_id:` (Python
truthiness — `None` and `0` are falsy), then `Department.objects.get(id=...)`
with `DoesNotExist` degraded to `None`. -/
def resolve_suggested (db : DB) : Option Int → Option Department
  | none => none
  | some i => if i == 0 then none else db.departments.find? fun d => ((d.id : Int)) == i

/-- The final `AIResult.objects.create(...)` of a run that reached stage 5:
classification fields from the reasoner output, `suggested_department_id`
from the *resolved* department (null when unresolved),
`vector_similarity_score` from the top candidate (or `0.0`), plus the
candidate list, the raw vector and the elapsed time. -/
def final_ai_result (env : Env) (db : DB) (message : Message) (text : String)
    (language : String) : AIResult :=
  let vector := pipeline_vector env
  let candidates := pipeline_candidates env vector language
  let analysis := env.gemini text candidates
  let suggested_dept := resolve_suggested db analysis.suggested_department_id
  { session_uuid := message.session_uuid
    message_uuid := message.message_uuid
    is_injection := false
    message_type := analysis.message_type
    routing_confidence := analysis.routing_confidence
    suggested_department_name := analysis.suggested_department_name
    suggested_department_id := suggested_dept.map fun d => (d.id : Int)
    reason := analysis.reason
    explanation := analysis.explanation
    vector_similarity_score := some (match candidates with | [] => 0 | c :: _ => c.score)
    vector_top_candidates := some candidates
    message_raw_embedding := some vector
    process_duration_ms := some env.duration_ms }

/-- Stages 2–6 of `process_message` (embedding, search, reasoner, final
`AIResult.objects.create`, conditional `message_router` call). `inject_rec`
is the `InjectResult` row stage 1 already created. When the suggestion
resolved, `message_router` is invoked; if its lookups succeed it raises
`AttributeError` after committing the assignment, and nothing in
`process_message` catches it, so the run ends in `RunOutcome.attributeError`
and `return ai_result` is never reached; if its lookups fail it logs and
returns, and the record is returned as on the no-dispatch path. -/
def classify_and_record (env : Env) (db : DB) (message : Message) (text : String)
    (language : String) (inject_rec : InjectResult) : RunOutcome × Trace × DB :=
  let vector := pipeline_vector env
  let candidates := pipeline_candidates env vector language
  let analysis := env.gemini text candidates
  let suggested_dept := resolve_suggested db analysis.suggested_department_id
  let ai_result : AIResult := final_ai_result env db message text language
  let db2 := match suggested_dept with
    | some d => (message_router db d.id message.message_uuid).1
    | none => db
  let routerCalls := match suggested_dept with
    | some d => [(d.id, message.message_uuid)]
    | none => ([] : List (Nat × Nat))
  let result := match suggested_dept with
    | some d =>
      if (message_router db d.id message.message_uuid).2 then RunOutcome.attributeError
      else RunOutcome.ret (some ai_result)
    | none => RunOutcome.ret (some ai_result)
  (result,
   { injectResults := [inject_rec], aiResults := [ai_result], embedCalls := 1,
     geminiCalls := 1, searchCalls := pipeline_search_calls env vector language,
     routerCalls := routerCalls }, db2)

/-- Stages 1–1.5 of `process_message` on the extracted non-empty text:
injection screening (always writing an `InjectResult`), the injection
terminal branch, language detection (`if language not in ['uz', 'ru']`
terminates with an "Unsupported language" record), then stages 2–6. -/
def run_pipeline (env : Env) (db : DB) (message : Message) (text : String) :
    RunOutcome × Trace × DB :=
  let is_injection := injection_detector text
  let inject_rec : InjectResult := ⟨message.message_uuid, is_injection, text.length⟩
  if is_injection then
    (RunOutcome.ret none,
     { injectResults := [inject_rec],
       aiResults := [{ session_uuid := message.session_uuid,
                       message_uuid := message.message_uuid,
                       is_injection := true,
                       reason := some "Injection detected" }] }, db)
  else
    let language := detect_language text
    if language == some "uz" || language == some "ru" then
      classify_and_record env db message text (language.getD "") inject_rec
    else
      (RunOutcome.ret none,
       { injectResults := [inject_rec],
         aiResults := [{ session_uuid := message.session_uuid,
                         message_uuid := message.message_uuid,
                         is_injection := false,
                         reason := some ("Unsupported language: " ++ pyShow language) }] },
       db)

/-- Source `ai/logic.py, process_message`: the trigger operation. A missing message
or a message with no extractable text returns `None` with no rows created;
otherwise the pipeline runs on the stripped concatenated text. A run that
dispatches ends in the propagated `AttributeError` instead of a return. -/
def process_message (env : Env) (db : DB) (message_uuid : Nat) :
    RunOutcome × Trace × DB :=
  match db.messages.find? (fun m => m.message_uuid == message_uuid) with
  | none => (RunOutcome.ret none, {}, db)
  | some message =>
    let text := extract_text message.contents
    if text == "" then (RunOutcome.ret none, {}, db)
    else run_pipeline env db message text

/-! ## Concrete stores and environments used by witness runs -/

/-- A fixed environment for concrete witness runs. -/
def envW : Env :=
  { embedSvc := fun _ => .success [1, 2]
    searchEnv := fun _ _ => .ok []
    gemini := fun _ _ => {}
    duration_ms := 7 }

/-- A store holding one conversation with one flagged-text message. -/
def dbInj : DB :=
  { sessions := [⟨10, none⟩]
    messages := [⟨101, 10, [⟨"text", some "please DELETE ALL records"⟩]⟩]
    departments := [] }

/-- A store holding one conversation with one digits-only message. -/
def dbDigits : DB :=
  { sessions := [⟨40, none⟩]
    messages := [⟨401, 40, [⟨"text", some "1234 567"⟩]⟩]
    departments := [] }

/-- A store whose only message has no extractable text (a non-text content
and a text content whose text is empty). -/
def dbNoText : DB :=
  { sessions := [⟨50, none⟩]
    messages := [⟨501, 50, [⟨"photo", some "x"⟩, ⟨"text", some ""⟩]⟩]
    departments := [] }

/-- A store holding one conversation with one Latin-script message and one
department. -/
def dbUz : DB :=
  { sessions := [⟨70, none⟩]
    messages := [⟨701, 70, [⟨"text", some "suv chiqib ketyapti"⟩]⟩]
    departments := [⟨3, true, false⟩] }

/-- An environment whose filtered search finds a candidate (no fallback). -/
def envHit : Env :=
  { embedSvc := fun _ => .success [1, 2]
    searchEnv := fun _ l => match l with
      | some _ => .ok [⟨some "Water", 9, some "water issues", some 3⟩]
      | none => .ok []
    gemini := fun _ _ => {}
    duration_ms := 4 }

/-- An environment whose filtered search is empty (fallback happens). -/
def envMiss : Env :=
  { embedSvc := fun _ => .success [1, 2]
    searchEnv := fun _ l => match l with
      | some _ => .ok []
      | none => .ok [⟨some "Water", 3, some "water issues", some 3⟩]
    gemini := fun _ _ => {}
    duration_ms := 4 }


/-- The assigned-department field of the session with the given uuid, or
`none` when no such session row exists. -/
def sessionAssigned (db : DB) (s_uuid : Nat) : Option (Option Nat) :=
  (db.sessions.find? (fun s => s.session_uuid == s_uuid)).map fun s =>
    s.assigned_department

/-- An environment whose reasoner suggests department id 7, which the
search candidates do not contain. -/
def envC10 : Env :=
  { embedSvc := fun _ => .success [1]
    searchEnv := fun _ _ => .ok [⟨some "Other", 1, none, some 5⟩]
    gemini := fun _ _ => { suggested_department_name := some "Ghost",
                           suggested_department_id := some 7 }
    duration_ms := 2 }

/-- A store whose only department (pk 7) is inactive and soft-deleted. -/
def dbC10 : DB :=
  { sessions := [⟨60, none⟩]
    messages := [⟨601, 60, [⟨"text", some "suv muammosi"⟩]⟩]
    departments := [⟨7, false, true⟩] }


/-- An environment whose reasoner suggests name "Water" with id 99, an id no
stored department has. -/
def envC2 : Env :=
  { embedSvc := fun _ => .success [1]
    searchEnv := fun _ _ => .ok [⟨some "Road", 1, none, some 7⟩]
    gemini := fun _ _ => { suggested_department_name := some "Water",
                           suggested_department_id := some 99 }
    duration_ms := 3 }

/-- A store whose only department has pk 7 (so id 99 does not resolve). -/
def dbC2 : DB :=
  { sessions := [⟨20, none⟩]
    messages := [⟨201, 20, [⟨"text", some "suv"⟩]⟩]
    departments := [⟨7, true, false⟩] }

/-- A store with one unassigned conversation, two messages in it and two
distinct departments. -/
def dbC1 : DB :=
  { sessions := [⟨30, none⟩]
    messages := [⟨301, 30, [⟨"text", some "a"⟩]⟩, ⟨302, 30, [⟨"text", some "b"⟩]⟩]
    departments := [⟨1, true, false⟩, ⟨2, true, false⟩] }

/-! ## Theorems: C5 (language classifier) -/


theorem toNat_lt_of_latin {c : Char} (h : isLatinChar c = true) : c.toNat < 1024 := by
  unfold isLatinChar at h
  rw [Bool.and_eq_true, decide_eq_true_eq, decide_eq_true_eq] at h
  obtain ⟨h1, h2⟩ := h
  unfold Char.toLower at h1 h2
  by_cases hu : c.toNat ≥ 65 ∧ c.toNat ≤ 90
  · omega
  · rw [if_neg hu] at h2
    have : c.toNat ≤ 122 := h2
    omega

theorem latin_not_cyrillic {c : Char} (h : isLatinChar c = true) :
    isCyrillicChar c = false := by
  have hlt := toNat_lt_of_latin h
  unfold isCyrillicChar
  rw [Bool.and_eq_false_iff]
  left
  rw [decide_eq_false_iff_not]
  intro hle
  have : (1024 : Nat) ≤ c.toNat := hle
  omega

theorem foldl_scanStep (cs : List Char) (st : Bool × Bool) :
    cs.foldl scanStep st = (st.1 || cs.any isLatinChar, st.2 || cs.any isCyrillicChar) := by
  induction cs generalizing st with
  | nil => simp
  | cons c cs ih =>
    rw [List.foldl_cons, ih, List.any_cons, List.any_cons]
    unfold scanStep
    by_cases hl : isLatinChar c = true
    · rw [if_pos hl, latin_not_cyrillic hl, hl]
      simp
    · rw [Bool.not_eq_true] at hl
      rw [if_neg (by simp [hl]), hl]
      by_cases hc : isCyrillicChar c = true
      · rw [if_pos hc, hc]
        simp
      · rw [Bool.not_eq_true] at hc
        rw [if_neg (by simp [hc]), hc]
        simp

theorem detect_language_eq (text : String) :
    detect_language text =
      (if text.toList.any isLatinChar && !text.toList.any isCyrillicChar then some "uz"
       else if text.toList.any isCyrillicChar then some "ru" else none) := by
  unfold detect_language
  rw [foldl_scanStep]
  simp

/-- C5: `detect_language` returns `'uz'` for a text with a Latin letter and
no Cyrillic letter, `'ru'` for a text with a Cyrillic letter regardless of
Latin letters, and `None` (unsupported) for a text with neither script. -/
theorem detect_language_scripts (text : String) :
    (text.toList.any isLatinChar = true → text.toList.any isCyrillicChar = false →
      detect_language text = some "uz") ∧
    (text.toList.any isCyrillicChar = true → detect_language text = some "ru") ∧
    (text.toList.any isLatinChar = false → text.toList.any isCyrillicChar = false →
      detect_language text = none) := by
  refine ⟨fun h1 h2 => ?_, fun h1 => ?_, fun h1 h2 => ?_⟩
  · rw [detect_language_eq, h1, h2]
    rfl
  · rw [detect_language_eq, h1]
    by_cases h2 : text.toList.any isLatinChar = true
    · rw [h2]
      rfl
    · rw [Bool.not_eq_true] at h2
      rw [h2]
      rfl
  · rw [detect_language_eq, h1, h2]
    rfl

/-- C5 witness: evaluation on the spec's example texts. -/
theorem detect_language_scripts_witness :
    detect_language "suv chiqib ketyapti" = some "uz" ∧
    detect_language "Вода yoq" = some "ru" ∧
    detect_language "1234 567" = none :=
  ⟨(detect_language_scripts "suv chiqib ketyapti").1 (by decide) (by decide),
   (detect_language_scripts "Вода yoq").2.1 (by decide),
   (detect_language_scripts "1234 567").2.2 (by decide) (by decide)⟩

/-! ## Theorems: C6 (embedding retry policy) -/


/-- The degraded output has dimensionality 768. -/
theorem zeroVector_length : zeroVector.length = 768 := by
  unfold zeroVector
  rw [List.length_replicate]

/-- Every component of the degraded output is `0.0`. -/
theorem zeroVector_all_zero : ∀ x ∈ zeroVector, x = 0 := by
  intro x hx
  exact List.eq_of_mem_replicate hx

/-- C6: `get_embedding`'s failure policy. The loop always returns a vector
(no failure escapes): with `k < 5` rate-limit responses before the first
decisive outcome, the sleeps performed are `20 s × attempt number` for each
failed attempt (`20, 40, …`); a success at attempt `k` returns its values; a
non-rate-limit error or an empty response at attempt `k` returns the
all-zero vector of length 768 at once; five rate limits exhaust the retries
and also return the zero vector (after the final 100 s sleep). -/
theorem get_embedding_failure_policy (svc : Nat → EmbedOutcome) :
    (zeroVector.length = 768 ∧ ∀ x ∈ zeroVector, x = 0) ∧
    ((∀ j, j < 5 → svc j = .rateLimit) →
      get_embedding svc = (zeroVector, (List.range 5).map fun j => 20 * (j + 1))) ∧
    (∀ k, k < 5 → (∀ j, j < k → svc j = .rateLimit) →
      (∀ v, svc k = .success v →
        get_embedding svc = (v, (List.range k).map fun j => 20 * (j + 1))) ∧
      (svc k = .otherError ∨ svc k = .emptyResponse →
        get_embedding svc = (zeroVector, (List.range k).map fun j => 20 * (j + 1)))) := by
  refine ⟨⟨zeroVector_length, zeroVector_all_zero⟩, ?_, ?_⟩
  · intro h
    simp only [get_embedding, get_embedding_from,
      h 0 (by norm_num), h 1 (by norm_num), h 2 (by norm_num),
      h 3 (by norm_num), h 4 (by norm_num)]
    rw [Prod.mk.injEq]
    exact ⟨rfl, by decide⟩
  · intro k hk h
    constructor
    · intro v hv
      interval_cases k
      · simp only [get_embedding, get_embedding_from, hv]
        rw [Prod.mk.injEq]
        exact ⟨rfl, by decide⟩
      · simp only [get_embedding, get_embedding_from, h 0 (by norm_num), hv]
        rw [Prod.mk.injEq]
        exact ⟨rfl, by decide⟩
      · simp only [get_embedding, get_embedding_from,
          h 0 (by norm_num), h 1 (by norm_num), hv]
        rw [Prod.mk.injEq]
        exact ⟨rfl, by decide⟩
      · simp only [get_embedding, get_embedding_from,
          h 0 (by norm_num), h 1 (by norm_num), h 2 (by norm_num), hv]
        rw [Prod.mk.injEq]
        exact ⟨rfl, by decide⟩
      · simp only [get_embedding, get_embedding_from,
          h 0 (by norm_num), h 1 (by norm_num), h 2 (by norm_num),
          h 3 (by norm_num), hv]
        rw [Prod.mk.injEq]
        exact ⟨rfl, by decide⟩
    · intro hv
      rcases hv with hv | hv <;> interval_cases k <;>
        first
        | (simp only [get_embedding, get_embedding_from, hv]
           rw [Prod.mk.injEq]
           exact ⟨rfl, by decide⟩)
        | (simp only [get_embedding, get_embedding_from, h 0 (by norm_num), hv]
           rw [Prod.mk.injEq]
           exact ⟨rfl, by decide⟩)
        | (simp only [get_embedding, get_embedding_from,
             h 0 (by norm_num), h 1 (by norm_num), hv]
           rw [Prod.mk.injEq]
           exact ⟨rfl, by decide⟩)
        | (simp only [get_embedding, get_embedding_from,
             h 0 (by norm_num), h 1 (by norm_num), h 2 (by norm_num), hv]
           rw [Prod.mk.injEq]
           exact ⟨rfl, by decide⟩)
        | (simp only [get_embedding, get_embedding_from,
             h 0 (by norm_num), h 1 (by norm_num), h 2 (by norm_num),
             h 3 (by norm_num), hv]
           rw [Prod.mk.injEq]
           exact ⟨rfl, by decide⟩)

/-- C6 witness: two rate limits then a success yields the success values
after 20 s and 40 s sleeps; an immediate non-rate-limit error yields the
768-entry zero vector with no sleep. -/
theorem get_embedding_failure_policy_witness :
    get_embedding (fun n => if n < 2 then .rateLimit else .success [1, 2]) =
      ([1, 2], [20, 40]) ∧
    get_embedding (fun _ => .otherError) = (zeroVector, []) := by
  constructor
  · have h := ((get_embedding_failure_policy
      (fun n => if n < 2 then .rateLimit else .success [1, 2])).2.2 2 (by norm_num)
      (by intro j hj; interval_cases j <;> rfl)).1 [1, 2] rfl
    rw [h]
    rfl
  · have h := ((get_embedding_failure_policy (fun _ => .otherError)).2.2 0 (by norm_num)
      (by intro j hj; omega)).2 (Or.inl rfl)
    rw [h]
    rfl

/-! ## Reduction lemmas for the pipeline branches -/


theorem injection_detector_of_sub {text p : String} (hp : p ∈ suspicious_patterns)
    (hsub : hasSubstr (lowerStr p).toList (lowerStr text).toList = true) :
    injection_detector text = true := by
  unfold injection_detector
  rw [List.any_eq_true]
  exact ⟨p, hp, hsub⟩

theorem text_ne_empty_of_sub {text p : String} (hp : p ∈ suspicious_patterns)
    (hsub : hasSubstr (lowerStr p).toList (lowerStr text).toList = true) :
    text ≠ "" := by
  intro h0
  rw [h0] at hsub
  have h1 : (lowerStr "").toList = [] := by decide
  rw [h1] at hsub
  fin_cases hp <;> exact absurd hsub (by decide)

theorem process_message_reduce {db : DB} {uuid : Nat} {msg : Message} (env : Env)
    (hfind : db.messages.find? (fun m => m.message_uuid == uuid) = some msg)
    (htext : extract_text msg.contents ≠ "") :
    process_message env db uuid = run_pipeline env db msg (extract_text msg.contents) := by
  unfold process_message
  rw [hfind]
  simp only [beq_eq_false_iff_ne.mpr htext, Bool.false_eq_true, if_false]


theorem run_pipeline_injection {text : String} (env : Env) (db : DB) (msg : Message)
    (hflag : injection_detector text = true) :
    run_pipeline env db msg text =
      (RunOutcome.ret none,
       { injectResults := [⟨msg.message_uuid, true, text.length⟩],
         aiResults := [{ session_uuid := msg.session_uuid, message_uuid := msg.message_uuid,
                         is_injection := true, reason := some "Injection detected" }] }, db) := by
  unfold run_pipeline
  rw [hflag]
  rfl

theorem run_pipeline_unsupported {text : String} (env : Env) (db : DB) (msg : Message)
    (hflag : injection_detector text = false)
    (hns : (detect_language text == some "uz" || detect_language text == some "ru") = false) :
    run_pipeline env db msg text =
      (RunOutcome.ret none,
       { injectResults := [⟨msg.message_uuid, false, text.length⟩],
         aiResults := [{ session_uuid := msg.session_uuid, message_uuid := msg.message_uuid,
                         is_injection := false,
                         reason := some ("Unsupported language: " ++
                           pyShow (detect_language text)) }] }, db) := by
  simp only [run_pipeline, hflag, hns, Bool.false_eq_true, if_false]

theorem run_pipeline_supported {text lang : String} (env : Env) (db : DB) (msg : Message)
    (hflag : injection_detector text = false)
    (hlang : detect_language text = some lang)
    (hl : lang = "uz" ∨ lang = "ru") :
    run_pipeline env db msg text =
      classify_and_record env db msg text lang ⟨msg.message_uuid, false, text.length⟩ := by
  have hc : ((some lang == some "uz" || some lang == some "ru")) = true := by
    rcases hl with h | h <;> rw [h] <;> rfl
  simp only [run_pipeline, hflag, hc, Bool.false_eq_true, if_false, if_true, hlang,
    Option.getD_some]

/-! ## Theorems: C3 (injection short-circuit) -/


/-- C3: a message text containing one of the fixed flagged substrings
(case-insensitively, via lower-casing exactly as the code does) is flagged
by `injection_detector`, and a pipeline run on a stored message carrying
that text writes the `InjectResult` and exactly one `AIResult` with
`is_injection = true` and the fixed reason string `"Injection detected"`
(every classification field keeps its `none` default), returns the no-op
outcome and leaves the state unchanged, and never invokes the embedding
client, the vector search, the reasoner or the dispatcher. -/
theorem injection_terminates_pipeline (text p : String)
    (hp : p ∈ suspicious_patterns)
    (hsub : hasSubstr (lowerStr p).toList (lowerStr text).toList = true) :
    injection_detector text = true ∧
    ∀ (env : Env) (db : DB) (uuid : Nat) (msg : Message),
      db.messages.find? (fun m => m.message_uuid == uuid) = some msg →
      extract_text msg.contents = text →
      (process_message env db uuid).1 = RunOutcome.ret none ∧
      (process_message env db uuid).2.1.injectResults =
        [⟨msg.message_uuid, true, text.length⟩] ∧
      (process_message env db uuid).2.1.aiResults =
        [{ session_uuid := msg.session_uuid, message_uuid := msg.message_uuid,
           is_injection := true, reason := some "Injection detected" }] ∧
      (process_message env db uuid).2.1.embedCalls = 0 ∧
      (process_message env db uuid).2.1.geminiCalls = 0 ∧
      (process_message env db uuid).2.1.searchCalls = [] ∧
      (process_message env db uuid).2.1.routerCalls = [] ∧
      (process_message env db uuid).2.2 = db := by
  have hflag := injection_detector_of_sub hp hsub
  refine ⟨hflag, ?_⟩
  intro env db uuid msg hfind hext
  have htext : extract_text msg.contents ≠ "" := by
    rw [hext]
    exact text_ne_empty_of_sub hp hsub
  rw [process_message_reduce env hfind htext, hext,
    run_pipeline_injection env db msg hflag]
  exact ⟨rfl, rfl, rfl, rfl, rfl, rfl, rfl, rfl⟩

/-- C3 witness: the pipeline on a stored message whose text contains
`"delete all"` case-insensitively. -/
theorem injection_terminates_pipeline_witness :
    injection_detector "please DELETE ALL records" = true ∧
    (process_message envW dbInj 101).1 = RunOutcome.ret none ∧
    (process_message envW dbInj 101).2.1.embedCalls = 0 ∧
    (process_message envW dbInj 101).2.1.aiResults =
      [{ session_uuid := 10, message_uuid := 101, is_injection := true,
         reason := some "Injection detected" }] := by
  have h := injection_terminates_pipeline "please DELETE ALL records" "delete all"
    (by decide) (by decide)
  have h2 := h.2 envW dbInj 101 ⟨101, 10, [⟨"text", some "please DELETE ALL records"⟩]⟩
    (by rfl) (by decide)
  exact ⟨h.1, h2.1, h2.2.2.2.1, h2.2.2.1⟩

/-! ## Theorems: C9 (unsupported-language short-circuit) -/


theorem classify_and_record_components (env : Env) (db : DB) (msg : Message)
    (text lang : String) (rec : InjectResult) :
    (classify_and_record env db msg text lang rec).2.1.injectResults = [rec] ∧
    (classify_and_record env db msg text lang rec).2.1.aiResults =
      [final_ai_result env db msg text lang] ∧
    (classify_and_record env db msg text lang rec).2.1.embedCalls = 1 ∧
    (classify_and_record env db msg text lang rec).2.1.geminiCalls = 1 ∧
    (classify_and_record env db msg text lang rec).2.1.searchCalls =
      pipeline_search_calls env (pipeline_vector env) lang :=
  ⟨rfl, rfl, rfl, rfl, rfl⟩

theorem find?_message_uuid {db : DB} {uuid : Nat} {msg : Message}
    (hfind : db.messages.find? (fun m => m.message_uuid == uuid) = some msg) :
    msg.message_uuid = uuid := by
  have h := List.find?_some hfind
  exact beq_iff_eq.mp h

theorem resolve_suggested_mem {db : DB} {x : Option Int} {d : Department}
    (h : resolve_suggested db x = some d) : d ∈ db.departments := by
  cases x with
  | none => exact absurd h (by simp [resolve_suggested])
  | some i =>
    simp only [resolve_suggested] at h
    by_cases hz : (i == 0) = true
    · rw [if_pos hz] at h
      exact absurd h (by simp)
    · rw [if_neg hz] at h
      exact List.mem_of_find?_eq_some h

theorem message_router_succeeds {db : DB} {uuid : Nat} {msg : Message} (dept_id : Nat)
    (hm : db.messages.find? (fun m => m.message_uuid == uuid) = some msg)
    (d : Department) (hmem : d ∈ db.departments) (hdid : d.id = dept_id) :
    (message_router db dept_id uuid).2 = true := by
  have hs : (db.departments.find? (fun d' => d'.id == dept_id)).isSome := by
    rw [List.find?_isSome]
    refine ⟨d, hmem, ?_⟩
    rw [hdid]
    exact beq_self_eq_true dept_id
  obtain ⟨d2, hd2⟩ := Option.isSome_iff_exists.mp hs
  unfold message_router
  rw [hm, hd2]

theorem classify_and_record_ret (env : Env) (db : DB) (msg : Message)
    (text lang : String) (rec : InjectResult)
    (hres : resolve_suggested db
      (env.gemini text (pipeline_candidates env (pipeline_vector env) lang)).suggested_department_id =
        none) :
    (classify_and_record env db msg text lang rec).1 =
      RunOutcome.ret (some (final_ai_result env db msg text lang)) := by
  show (match resolve_suggested db
      (env.gemini text (pipeline_candidates env (pipeline_vector env) lang)).suggested_department_id with
    | some d' =>
      if (message_router db d'.id msg.message_uuid).2 then RunOutcome.attributeError
      else RunOutcome.ret (some (final_ai_result env db msg text lang))
    | none => RunOutcome.ret (some (final_ai_result env db msg text lang))) =
    RunOutcome.ret (some (final_ai_result env db msg text lang))
  rw [hres]

theorem classify_and_record_raises (env : Env) (db : DB) (msg : Message)
    (text lang : String) (rec : InjectResult) (d : Department)
    (hres : resolve_suggested db
      (env.gemini text (pipeline_candidates env (pipeline_vector env) lang)).suggested_department_id =
        some d)
    (hrt : (message_router db d.id msg.message_uuid).2 = true) :
    (classify_and_record env db msg text lang rec).1 = RunOutcome.attributeError := by
  show (match resolve_suggested db
      (env.gemini text (pipeline_candidates env (pipeline_vector env) lang)).suggested_department_id with
    | some d' =>
      if (message_router db d'.id msg.message_uuid).2 then RunOutcome.attributeError
      else RunOutcome.ret (some (final_ai_result env db msg text lang))
    | none => RunOutcome.ret (some (final_ai_result env db msg text lang))) =
    RunOutcome.attributeError
  rw [hres]
  show (if (message_router db d.id msg.message_uuid).2 then RunOutcome.attributeError
        else RunOutcome.ret (some (final_ai_result env db msg text lang))) =
    RunOutcome.attributeError
  rw [hrt]
  rfl

/-- C9: on a stored message whose (non-empty) text contains neither a Latin
nor a Cyrillic letter and no flagged phrase, the run terminates at language
detection: it returns the no-op outcome, writes exactly one `AIResult` with
`is_injection = false` and reason `"Unsupported language: None"` (the
f-string rendering of the `None` detection result) and no classification
fields, and never calls the embedding client, the vector search, the
reasoner or the dispatcher. -/
theorem unsupported_language_terminates (text : String)
    (hlat : text.toList.any isLatinChar = false)
    (hcyr : text.toList.any isCyrillicChar = false)
    (hflag : injection_detector text = false) :
    detect_language text = none ∧
    ∀ (env : Env) (db : DB) (uuid : Nat) (msg : Message),
      db.messages.find? (fun m => m.message_uuid == uuid) = some msg →
      extract_text msg.contents = text →
      text ≠ "" →
      (process_message env db uuid).1 = RunOutcome.ret none ∧
      (process_message env db uuid).2.1.injectResults =
        [⟨msg.message_uuid, false, text.length⟩] ∧
      (process_message env db uuid).2.1.aiResults =
        [{ session_uuid := msg.session_uuid, message_uuid := msg.message_uuid,
           is_injection := false, reason := some "Unsupported language: None" }] ∧
      (process_message env db uuid).2.1.embedCalls = 0 ∧
      (process_message env db uuid).2.1.geminiCalls = 0 ∧
      (process_message env db uuid).2.1.searchCalls = [] ∧
      (process_message env db uuid).2.1.routerCalls = [] ∧
      (process_message env db uuid).2.2 = db := by
  have hdl : detect_language text = none := by
    rw [detect_language_eq, hlat, hcyr]
    rfl
  refine ⟨hdl, ?_⟩
  intro env db uuid msg hfind hext htext
  have htext' : extract_text msg.contents ≠ "" := by
    rw [hext]
    exact htext
  have hns : (detect_language text == some "uz" || detect_language text == some "ru") = false := by
    rw [hdl]
    rfl
  rw [process_message_reduce env hfind htext', hext,
    run_pipeline_unsupported env db msg hflag hns]
  rw [hdl]
  exact ⟨rfl, rfl, rfl, rfl, rfl, rfl, rfl, rfl⟩

/-- C9 witness: the spec's digits-only example text `"1234 567"`. -/
theorem unsupported_language_terminates_witness :
    detect_language "1234 567" = none ∧
    (process_message envW dbDigits 401).1 = RunOutcome.ret none ∧
    (process_message envW dbDigits 401).2.1.embedCalls = 0 ∧
    (process_message envW dbDigits 401).2.1.aiResults =
      [{ session_uuid := 40, message_uuid := 401, is_injection := false,
         reason := some "Unsupported language: None" }] := by
  have h := unsupported_language_terminates "1234 567" (by decide) (by decide) (by decide)
  have h2 := h.2 envW dbDigits 401 ⟨401, 40, [⟨"text", some "1234 567"⟩]⟩
    (by rfl) (by decide) (by decide)
  exact ⟨h.1, h2.1, h2.2.2.2.1, h2.2.2.1⟩

/-! ## Theorems: C4 (trigger operation output) -/


/-- C4 counterexample: message 101 in `dbInj` has extractable text — so the
claim requires the operation's output to be the created `AnalysisRecord` —
and an `AIResult` row is indeed created, yet the operation returns the
no-op outcome (`None`) because the run terminated at injection screening;
and the dispatching run on `dbC10` also creates its record yet ends in the
propagated `AttributeError` instead of returning it. -/
theorem trigger_output_cex :
    extract_text [⟨"text", some "please DELETE ALL records"⟩] ≠ "" ∧
    ((process_message envW dbInj 101).2.1.aiResults).length = 1 ∧
    (process_message envW dbInj 101).1 = RunOutcome.ret none ∧
    ((process_message envC10 dbC10 601).2.1.aiResults).length = 1 ∧
    (process_message envC10 dbC10 601).1 = RunOutcome.attributeError :=
  ⟨by decide, by decide, by decide, by decide, by decide⟩

/-- C4 amended: with no stored message or no extractable text the operation
is a distinguishable no-op that creates no record of any kind; otherwise
exactly one `AIResult` is created and exactly one of three outcomes holds:
the run completed classification without resolving a department and the
operation returns the record; the run terminated at injection screening or
at language detection and returns the no-op outcome despite the record; or
the run resolved a department and dispatched, and the Dispatcher's
`AttributeError` propagates out of the operation instead of a return (the
record and the assignment are already committed when it is raised). -/
theorem trigger_output_amended (env : Env) (db : DB) (uuid : Nat) :
    (db.messages.find? (fun m => m.message_uuid == uuid) = none →
      process_message env db uuid = (RunOutcome.ret none, {}, db)) ∧
    (∀ msg, db.messages.find? (fun m => m.message_uuid == uuid) = some msg →
      (extract_text msg.contents = "" →
        process_message env db uuid = (RunOutcome.ret none, {}, db)) ∧
      (extract_text msg.contents ≠ "" →
        ∃ a, (process_message env db uuid).2.1.aiResults = [a] ∧
          (((process_message env db uuid).1 = RunOutcome.ret (some a) ∧
             (process_message env db uuid).2.1.routerCalls = []) ∨
           ((process_message env db uuid).1 = RunOutcome.ret none ∧
             (a.is_injection = true ∨
              a.reason = some ("Unsupported language: " ++
                pyShow (detect_language (extract_text msg.contents))))) ∨
           ((process_message env db uuid).1 = RunOutcome.attributeError ∧
             (process_message env db uuid).2.1.routerCalls ≠ [])))) := by
  refine ⟨?_, ?_⟩
  · intro hnone
    unfold process_message
    rw [hnone]
  · intro msg hfind
    refine ⟨?_, ?_⟩
    · intro hempty
      unfold process_message
      rw [hfind]
      simp only [hempty]
      rfl
    · intro htext
      rw [process_message_reduce env hfind htext]
      by_cases hinj : injection_detector (extract_text msg.contents) = true
      · rw [run_pipeline_injection env db msg hinj]
        exact ⟨_, rfl, Or.inr (Or.inl ⟨rfl, Or.inl rfl⟩)⟩
      · rw [Bool.not_eq_true] at hinj
        by_cases hlang : (detect_language (extract_text msg.contents) == some "uz" ||
            detect_language (extract_text msg.contents) == some "ru") = true
        · have hsome : ∃ lang, detect_language (extract_text msg.contents) = some lang ∧
              (lang = "uz" ∨ lang = "ru") := by
            cases hdl2 : detect_language (extract_text msg.contents) with
            | none =>
              rw [hdl2] at hlang
              exact absurd hlang (by decide)
            | some l =>
              rw [hdl2] at hlang
              simp only [Bool.or_eq_true, beq_iff_eq, Option.some.injEq] at hlang
              exact ⟨l, rfl, hlang⟩
          obtain ⟨lang, hdl, hl⟩ := hsome
          rw [run_pipeline_supported env db msg hinj hdl hl]
          cases hres : resolve_suggested db
              (env.gemini (extract_text msg.contents)
                (pipeline_candidates env (pipeline_vector env) lang)).suggested_department_id with
          | none =>
            refine ⟨final_ai_result env db msg (extract_text msg.contents) lang,
              (classify_and_record_components env db msg _ lang _).2.1,
              Or.inl ⟨classify_and_record_ret env db msg _ lang _ hres, ?_⟩⟩
            show (match resolve_suggested db
                (env.gemini (extract_text msg.contents)
                  (pipeline_candidates env (pipeline_vector env) lang)).suggested_department_id with
              | some d' => [(d'.id, msg.message_uuid)]
              | none => ([] : List (Nat × Nat))) = []
            rw [hres]
          | some d =>
            have hm2 : db.messages.find? (fun m => m.message_uuid == msg.message_uuid) =
                some msg := by
              rw [find?_message_uuid hfind]
              exact hfind
            have hrt := message_router_succeeds d.id hm2 d (resolve_suggested_mem hres) rfl
            refine ⟨final_ai_result env db msg (extract_text msg.contents) lang,
              (classify_and_record_components env db msg _ lang _).2.1,
              Or.inr (Or.inr
                ⟨classify_and_record_raises env db msg _ lang _ d hres hrt, ?_⟩)⟩
            show (match resolve_suggested db
                (env.gemini (extract_text msg.contents)
                  (pipeline_candidates env (pipeline_vector env) lang)).suggested_department_id with
              | some d' => [(d'.id, msg.message_uuid)]
              | none => ([] : List (Nat × Nat))) ≠ []
            rw [hres]
            exact List.cons_ne_nil _ _
        · rw [Bool.not_eq_true] at hlang
          rw [run_pipeline_unsupported env db msg hinj hlang]
          exact ⟨_, rfl, Or.inr (Or.inl ⟨rfl, Or.inr rfl⟩)⟩

/-- C4 witness (for the amended claim): a message with no extractable text
and a missing message are both no-ops that create nothing. -/
theorem trigger_output_amended_witness :
    process_message envW dbNoText 501 = (RunOutcome.ret none, {}, dbNoText) ∧
    process_message envW dbNoText 999 = (RunOutcome.ret none, {}, dbNoText) :=
  ⟨((trigger_output_amended envW dbNoText 501).2
      ⟨501, 50, [⟨"photo", some "x"⟩, ⟨"text", some ""⟩]⟩ (by rfl)).1 (by decide),
   (trigger_output_amended envW dbNoText 999).1 (by rfl)⟩

/-! ## Theorems: C7 (candidate search fallback) -/


theorem search_vector_db_call (env2 : List ℚ → Option String → SearchOutcome)
    (vector : List ℚ) (language : Option String) :
    (search_vector_db env2 vector language).2 = (vector, mkFilter language, search_limit) := by
  unfold search_vector_db
  cases env2 vector (mkFilter language) <;> rfl

theorem process_message_searchCalls (env : Env) (db : DB) (uuid : Nat)
    (msg : Message) (text lang : String)
    (hfind : db.messages.find? (fun m => m.message_uuid == uuid) = some msg)
    (hext : extract_text msg.contents = text) (htext : text ≠ "")
    (hflag : injection_detector text = false)
    (hlang : detect_language text = some lang) (hl : lang = "uz" ∨ lang = "ru") :
    (process_message env db uuid).2.1.searchCalls =
      pipeline_search_calls env (pipeline_vector env) lang := by
  have htext' : extract_text msg.contents ≠ "" := by
    rw [hext]
    exact htext
  rw [process_message_reduce env hfind htext', hext,
    run_pipeline_supported env db msg hflag hlang hl]
  exact (classify_and_record_components env db msg text lang _).2.2.2.2

/-- C7: every run that reaches CandidateSearch issues the language-filtered
search first (top-K limit 3); exactly one unfiltered fallback search over
the same vector with the same limit follows precisely when the filtered
search returned zero candidates, and no fallback follows a non-empty
filtered result. -/
theorem candidate_search_fallback (env : Env) (db : DB) (uuid : Nat)
    (msg : Message) (text lang : String)
    (hfind : db.messages.find? (fun m => m.message_uuid == uuid) = some msg)
    (hext : extract_text msg.contents = text) (htext : text ≠ "")
    (hflag : injection_detector text = false)
    (hlang : detect_language text = some lang) (hl : lang = "uz" ∨ lang = "ru") :
    ((search_vector_db env.searchEnv (pipeline_vector env) (some lang)).1 ≠ [] →
      (process_message env db uuid).2.1.searchCalls =
        [(pipeline_vector env, some lang, 3)]) ∧
    ((search_vector_db env.searchEnv (pipeline_vector env) (some lang)).1 = [] →
      (process_message env db uuid).2.1.searchCalls =
        [(pipeline_vector env, some lang, 3), (pipeline_vector env, none, 3)]) := by
  have hred := process_message_searchCalls env db uuid msg text lang
    hfind hext htext hflag hlang hl
  have hfil : mkFilter (some lang) = some lang := by
    rcases hl with h | h <;> rw [h] <;> rfl
  constructor
  · intro hne
    have hie : (search_vector_db env.searchEnv (pipeline_vector env) (some lang)).1.isEmpty = false := by
      rw [Bool.eq_false_iff]
      intro hcontra
      exact hne (List.isEmpty_iff.mp hcontra)
    rw [hred]
    unfold pipeline_search_calls
    simp only [hie, Bool.false_eq_true, if_false]
    rw [search_vector_db_call, hfil]
    rfl
  · intro he
    have hie : (search_vector_db env.searchEnv (pipeline_vector env) (some lang)).1.isEmpty = true :=
      List.isEmpty_iff.mpr he
    rw [hred]
    unfold pipeline_search_calls
    simp only [hie, if_true]
    rw [search_vector_db_call, search_vector_db_call, hfil]
    rfl

/-- C7 witness: with a non-empty filtered result there is exactly one
filtered call; with an empty filtered result exactly one unfiltered
fallback over the same vector follows. -/
theorem candidate_search_fallback_witness :
    (process_message envHit dbUz 701).2.1.searchCalls = [([1, 2], some "uz", 3)] ∧
    (process_message envMiss dbUz 701).2.1.searchCalls =
      [([1, 2], some "uz", 3), ([1, 2], none, 3)] := by
  constructor
  · have h := (candidate_search_fallback envHit dbUz 701
      ⟨701, 70, [⟨"text", some "suv chiqib ketyapti"⟩]⟩ "suv chiqib ketyapti" "uz"
      (by rfl) (by decide) (by decide) (by decide) (by decide) (Or.inl rfl)).1 (by decide)
    rw [h]
    rfl
  · have h := (candidate_search_fallback envMiss dbUz 701
      ⟨701, 70, [⟨"text", some "suv chiqib ketyapti"⟩]⟩ "suv chiqib ketyapti" "uz"
      (by rfl) (by decide) (by decide) (by decide) (by decide) (Or.inl rfl)).2 (by decide)
    rw [h]
    rfl

/-! ## Theorems: C8 (similarity score invariant) -/


theorem process_message_completes (env : Env) (db : DB) (uuid : Nat)
    (msg : Message) (text lang : String)
    (hfind : db.messages.find? (fun m => m.message_uuid == uuid) = some msg)
    (hext : extract_text msg.contents = text) (htext : text ≠ "")
    (hflag : injection_detector text = false)
    (hlang : detect_language text = some lang) (hl : lang = "uz" ∨ lang = "ru") :
    process_message env db uuid =
      classify_and_record env db msg text lang ⟨msg.message_uuid, false, text.length⟩ := by
  have htext' : extract_text msg.contents ≠ "" := by
    rw [hext]
    exact htext
  rw [process_message_reduce env hfind htext', hext,
    run_pipeline_supported env db msg hflag hlang hl]

/-- C8: the `AIResult` created by a run that reached CandidateSearch stores
exactly the run's candidate list, and its `vector_similarity_score` equals
the first (top-ranked) candidate's score when that list is non-empty and
`0.0` when the search found no candidates. (A run terminated before the
search stores no candidate list and a null score — see the C3/C9 theorems;
the record is created and committed before any dispatch, so the invariant
holds whether the run then returns or raises.) -/
theorem similarity_score_top_candidate (env : Env) (db : DB) (uuid : Nat)
    (msg : Message) (text lang : String)
    (hfind : db.messages.find? (fun m => m.message_uuid == uuid) = some msg)
    (hext : extract_text msg.contents = text) (htext : text ≠ "")
    (hflag : injection_detector text = false)
    (hlang : detect_language text = some lang) (hl : lang = "uz" ∨ lang = "ru") :
    ∃ a, (process_message env db uuid).2.1.aiResults = [a] ∧
      a.vector_top_candidates =
        some (pipeline_candidates env (pipeline_vector env) lang) ∧
      (pipeline_candidates env (pipeline_vector env) lang = [] →
        a.vector_similarity_score = some 0) ∧
      (∀ c cs, pipeline_candidates env (pipeline_vector env) lang = c :: cs →
        a.vector_similarity_score = some c.score) := by
  rw [process_message_completes env db uuid msg text lang hfind hext htext hflag hlang hl]
  refine ⟨final_ai_result env db msg text lang,
    (classify_and_record_components env db msg text lang _).2.1, rfl, ?_, ?_⟩
  · intro hc
    have hproj : (final_ai_result env db msg text lang).vector_similarity_score =
        some (match pipeline_candidates env (pipeline_vector env) lang with
              | [] => (0 : ℚ)
              | c :: _ => c.score) := rfl
    rw [hproj, hc]
  · intro c cs hc
    have hproj : (final_ai_result env db msg text lang).vector_similarity_score =
        some (match pipeline_candidates env (pipeline_vector env) lang with
              | [] => (0 : ℚ)
              | c :: _ => c.score) := rfl
    rw [hproj, hc]

/-- C8 witness: with one filtered hit of score 9 the recorded score is 9;
with no hits at all the recorded score is 0. -/
theorem similarity_score_top_candidate_witness :
    (process_message envHit dbUz 701).2.1.aiResults.map
      (fun a => a.vector_similarity_score) = [some 9] ∧
    (process_message envW dbUz 701).2.1.aiResults.map
      (fun a => a.vector_similarity_score) = [some 0] := by
  constructor
  · obtain ⟨a, h1, h2, h3, h4⟩ := similarity_score_top_candidate envHit dbUz 701
      ⟨701, 70, [⟨"text", some "suv chiqib ketyapti"⟩]⟩ "suv chiqib ketyapti" "uz"
      (by rfl) (by decide) (by decide) (by decide) (by decide) (Or.inl rfl)
    rw [h1, List.map_cons, List.map_nil,
      h4 ⟨some "Water", 9, some "water issues", some 3⟩ [] (by decide)]
  · obtain ⟨a, h1, h2, h3, h4⟩ := similarity_score_top_candidate envW dbUz 701
      ⟨701, 70, [⟨"text", some "suv chiqib ketyapti"⟩]⟩ "suv chiqib ketyapti" "uz"
      (by rfl) (by decide) (by decide) (by decide) (by decide) (Or.inl rfl)
    rw [h1, List.map_cons, List.map_nil, h3 (by decide)]

/-! ## Theorems: C10 (no liveness check on resolution) -/

theorem classify_and_record_router (env : Env) (db : DB) (msg : Message)
    (text lang : String) (rec : InjectResult) (d : Department)
    (hres : resolve_suggested db
      (env.gemini text (pipeline_candidates env (pipeline_vector env) lang)).suggested_department_id =
        some d) :
    (classify_and_record env db msg text lang rec).2.1.routerCalls =
      [(d.id, msg.message_uuid)] ∧
    (classify_and_record env db msg text lang rec).2.2 =
      (message_router db d.id msg.message_uuid).1 := by
  constructor
  · show (match resolve_suggested db
        (env.gemini text (pipeline_candidates env (pipeline_vector env) lang)).suggested_department_id with
      | some d' => [(d'.id, msg.message_uuid)]
      | none => ([] : List (Nat × Nat))) = [(d.id, msg.message_uuid)]
    rw [hres]
  · show (match resolve_suggested db
        (env.gemini text (pipeline_candidates env (pipeline_vector env) lang)).suggested_department_id with
      | some d' => (message_router db d'.id msg.message_uuid).1
      | none => db) = (message_router db d.id msg.message_uuid).1
    rw [hres]

/-- C10: whenever the reasoner's suggested id is truthy and equals the
primary key of *any* stored department — the resolution performs no
liveness (`is_active`/`is_deleted`) check and no membership check against
the candidate list — the run records the suggestion as resolved (the
record's department id is the resolved row's pk) and invokes the Dispatcher
exactly once for that department; the dispatch commits the assignment and
then raises `AttributeError` out of the operation. The department argument
`d` is arbitrary: nothing constrains its flags or its presence among the
candidates. -/
theorem resolved_suggestion_dispatches (env : Env) (db : DB) (uuid : Nat)
    (msg : Message) (text lang : String) (i : Int) (d : Department)
    (hfind : db.messages.find? (fun m => m.message_uuid == uuid) = some msg)
    (hext : extract_text msg.contents = text) (htext : text ≠ "")
    (hflag : injection_detector text = false)
    (hlang : detect_language text = some lang) (hl : lang = "uz" ∨ lang = "ru")
    (hid : (env.gemini text (pipeline_candidates env (pipeline_vector env) lang)).suggested_department_id = some i)
    (hi : i ≠ 0)
    (hfd : db.departments.find? (fun d' => ((d'.id : Int)) == i) = some d) :
    ∃ a, (process_message env db uuid).2.1.aiResults = [a] ∧
      a.suggested_department_id = some ((d.id : Int)) ∧
      (process_message env db uuid).2.1.routerCalls = [(d.id, msg.message_uuid)] ∧
      (process_message env db uuid).2.2 = (message_router db d.id msg.message_uuid).1 ∧
      (process_message env db uuid).1 = RunOutcome.attributeError := by
  have hres : resolve_suggested db
      (env.gemini text (pipeline_candidates env (pipeline_vector env) lang)).suggested_department_id =
        some d := by
    rw [hid]
    show (if i == 0 then none
          else db.departments.find? fun d' => ((d'.id : Int)) == i) = some d
    rw [if_neg (fun h => hi (beq_iff_eq.mp h))]
    exact hfd
  have hm2 : db.messages.find? (fun m => m.message_uuid == msg.message_uuid) = some msg := by
    rw [find?_message_uuid hfind]
    exact hfind
  have hrt := message_router_succeeds d.id hm2 d (resolve_suggested_mem hres) rfl
  rw [process_message_completes env db uuid msg text lang hfind hext htext hflag hlang hl]
  have hrouter := classify_and_record_router env db msg text lang
    ⟨msg.message_uuid, false, text.length⟩ d hres
  refine ⟨final_ai_result env db msg text lang,
    (classify_and_record_components env db msg text lang _).2.1, ?_, hrouter.1, hrouter.2,
    classify_and_record_raises env db msg text lang _ d hres hrt⟩
  have hproj : (final_ai_result env db msg text lang).suggested_department_id =
      (resolve_suggested db
        (env.gemini text (pipeline_candidates env (pipeline_vector env) lang)).suggested_department_id).map
        (fun d' => ((d'.id : Int))) := rfl
  rw [hproj, hres, Option.map_some']

/-- C10 witness: the suggested department 7 is inactive, soft-deleted and
not among the candidates, yet it is recorded as resolved, the Dispatcher is
invoked for it, the conversation ends up assigned to it, and the run ends
in the propagated `AttributeError`. -/
theorem resolved_suggestion_dispatches_witness :
    (process_message envC10 dbC10 601).2.1.aiResults.map
      (fun a => a.suggested_department_id) = [some 7] ∧
    (process_message envC10 dbC10 601).2.1.routerCalls = [(7, 601)] ∧
    sessionAssigned (process_message envC10 dbC10 601).2.2 60 = some (some 7) ∧
    (process_message envC10 dbC10 601).1 = RunOutcome.attributeError := by
  obtain ⟨a, h1, h2, h3, h4, h5⟩ := resolved_suggestion_dispatches envC10 dbC10 601
    ⟨601, 60, [⟨"text", some "suv muammosi"⟩]⟩ "suv muammosi" "uz" 7 ⟨7, false, true⟩
    (by rfl) (by decide) (by decide) (by decide) (by decide) (Or.inl rfl)
    (by rfl) (by decide) (by rfl)
  refine ⟨?_, h3, ?_, h5⟩
  · rw [h1, List.map_cons, List.map_nil, h2]
    rfl
  · rw [h4]
    decide

/-! ## Theorems: C2 (unresolved suggestion recording) -/

/-- C2 counterexample: the reasoner suggested id 99, which resolves to no
department; the created record keeps the suggested *name* verbatim, but its
department-id field is null — the suggested id 99 is *not* recorded
verbatim, contradicting the claim at this input. -/
theorem unresolved_suggestion_cex :
    (process_message envC2 dbC2 201).2.1.aiResults.map
      (fun a => a.suggested_department_name) = [some "Water"] ∧
    (process_message envC2 dbC2 201).2.1.aiResults.map
      (fun a => a.suggested_department_id) = [none] ∧
    ¬ (process_message envC2 dbC2 201).2.1.aiResults.map
      (fun a => a.suggested_department_id) = [some 99] :=
  ⟨by decide, by decide, by decide⟩

/-- C2 amended: when the reasoner's (truthy) suggested id resolves to no
stored department, the created record carries the AI-suggested department
*name* verbatim and a null department-id field — the record stores only the
resolved department's pk, so the raw AI-suggested id is not preserved — no
dispatch occurs, the state is unchanged and the record is returned. -/
theorem unresolved_suggestion_amended (env : Env) (db : DB) (uuid : Nat)
    (msg : Message) (text lang : String) (i : Int)
    (hfind : db.messages.find? (fun m => m.message_uuid == uuid) = some msg)
    (hext : extract_text msg.contents = text) (htext : text ≠ "")
    (hflag : injection_detector text = false)
    (hlang : detect_language text = some lang) (hl : lang = "uz" ∨ lang = "ru")
    (hid : (env.gemini text (pipeline_candidates env (pipeline_vector env) lang)).suggested_department_id = some i)
    (hmiss : db.departments.find? (fun d' => ((d'.id : Int)) == i) = none) :
    ∃ a, (process_message env db uuid).1 = RunOutcome.ret (some a) ∧
      (process_message env db uuid).2.1.aiResults = [a] ∧
      a.suggested_department_name =
        (env.gemini text (pipeline_candidates env (pipeline_vector env) lang)).suggested_department_name ∧
      a.suggested_department_id = none ∧
      (process_message env db uuid).2.1.routerCalls = [] ∧
      (process_message env db uuid).2.2 = db := by
  have hres : resolve_suggested db
      (env.gemini text (pipeline_candidates env (pipeline_vector env) lang)).suggested_department_id =
        none := by
    rw [hid]
    show (if i == 0 then none
          else db.departments.find? fun d' => ((d'.id : Int)) == i) = none
    by_cases hz : (i == 0) = true
    · rw [if_pos hz]
    · rw [if_neg hz]
      exact hmiss
  rw [process_message_completes env db uuid msg text lang hfind hext htext hflag hlang hl]
  refine ⟨final_ai_result env db msg text lang,
    classify_and_record_ret env db msg text lang _ hres,
    (classify_and_record_components env db msg text lang _).2.1, rfl, ?_, ?_, ?_⟩
  · have hproj : (final_ai_result env db msg text lang).suggested_department_id =
        (resolve_suggested db
          (env.gemini text (pipeline_candidates env (pipeline_vector env) lang)).suggested_department_id).map
          (fun d' => ((d'.id : Int))) := rfl
    rw [hproj, hres]
    rfl
  · show (match resolve_suggested db
        (env.gemini text (pipeline_candidates env (pipeline_vector env) lang)).suggested_department_id with
      | some d' => [(d'.id, msg.message_uuid)]
      | none => ([] : List (Nat × Nat))) = []
    rw [hres]
  · show (match resolve_suggested db
        (env.gemini text (pipeline_candidates env (pipeline_vector env) lang)).suggested_department_id with
      | some d' => (message_router db d'.id msg.message_uuid).1
      | none => db) = db
    rw [hres]

/-- C2 witness (for the amended claim): the unresolved suggestion of
`envC2` yields a record with the name `"Water"` verbatim, a null id, and no
dispatch. -/
theorem unresolved_suggestion_amended_witness :
    (process_message envC2 dbC2 201).2.1.aiResults.map
      (fun a => a.suggested_department_name) = [some "Water"] ∧
    (process_message envC2 dbC2 201).2.1.routerCalls = [] ∧
    (process_message envC2 dbC2 201).2.2 = dbC2 := by
  obtain ⟨a, h1, h2, h3, h4, h5, h6⟩ := unresolved_suggestion_amended envC2 dbC2 201
    ⟨201, 20, [⟨"text", some "suv"⟩]⟩ "suv" "uz" 99
    (by rfl) (by decide) (by decide) (by decide) (by decide) (Or.inl rfl)
    (by rfl) (by rfl)
  refine ⟨?_, h5, h6⟩
  rw [h2, List.map_cons, List.map_nil, h3]
  rfl

/-! ## Theorems: C1 (Dispatcher assignment idempotence) -/


theorem find?_assign_map (l : List Session) (u : Nat) (dept_id : Nat) :
    (l.map (fun s => if s.session_uuid == u then
        { s with assigned_department := some dept_id } else s)).find?
      (fun s => s.session_uuid == u) =
    (l.find? (fun s => s.session_uuid == u)).map
      (fun s => { s with assigned_department := some dept_id }) := by
  induction l with
  | nil => rfl
  | cons s l ih =>
    by_cases h : (s.session_uuid == u) = true
    · simp only [List.map_cons, h, if_true, List.find?, Option.map_some']
    · rw [Bool.not_eq_true] at h
      simp only [List.map_cons, h, Bool.false_eq_true, if_false, List.find?, ih]

/-- C1 counterexample: conversation 30 starts unassigned; `message_router`
with department 1 succeeds and assigns it; a later `message_router` with the
different existing department 2 succeeds and leaves the conversation
assigned to 2, not to 1 — the first-assignment-wins claim is false. -/
theorem first_assignment_wins_cex :
    sessionAssigned dbC1 30 = some none ∧
    (message_router dbC1 1 301).2 = true ∧
    sessionAssigned (message_router dbC1 1 301).1 30 = some (some 1) ∧
    (message_router (message_router dbC1 1 301).1 2 302).2 = true ∧
    sessionAssigned (message_router (message_router dbC1 1 301).1 2 302).1 30 =
      some (some 2) ∧
    ¬ sessionAssigned (message_router (message_router dbC1 1 301).1 2 302).1 30 =
      some (some 1) :=
  ⟨by decide, by decide, by decide, by decide, by decide, by decide⟩

/-- C1 amended: `message_router` assigns on *every* successful invocation:
whenever the message and the department are found, the message's
conversation ends up assigned to that department — also when it already had
a (different) department. Assignment is last-call-wins; no
first-assignment-wins guard exists in the Dispatcher (the system-level
first-assignment behavior arises only from the `precheck` caller, which
re-routes to the already-assigned department instead of running the
pipeline). -/
theorem router_last_assignment_wins (db : DB) (dept_id uuid : Nat)
    (msg : Message) (dept : Department)
    (hm : db.messages.find? (fun m => m.message_uuid == uuid) = some msg)
    (hd : db.departments.find? (fun d => d.id == dept_id) = some dept) :
    (message_router db dept_id uuid).2 = true ∧
    sessionAssigned (message_router db dept_id uuid).1 msg.session_uuid =
      (sessionAssigned db msg.session_uuid).map (fun _ => some dept.id) := by
  unfold message_router
  rw [hm, hd]
  refine ⟨rfl, ?_⟩
  show ((db.sessions.map (fun s => if s.session_uuid == msg.session_uuid then
      { s with assigned_department := some dept.id } else s)).find?
        (fun s => s.session_uuid == msg.session_uuid)).map
      (fun s => s.assigned_department) =
    ((db.sessions.find? (fun s => s.session_uuid == msg.session_uuid)).map
      (fun s => s.assigned_department)).map (fun _ => some dept.id)
  rw [find?_assign_map]
  cases db.sessions.find? (fun s => s.session_uuid == msg.session_uuid) <;> rfl

/-- C1 witness (for the amended claim): the second successful call of the
counterexample scenario reassigns conversation 30 to department 2. -/
theorem router_last_assignment_wins_witness :
    (message_router (message_router dbC1 1 301).1 2 302).2 = true ∧
    sessionAssigned (message_router (message_router dbC1 1 301).1 2 302).1 30 =
      some (some 2) := by
  have h := router_last_assignment_wins (message_router dbC1 1 301).1 2 302
    ⟨302, 30, [⟨"text", some "b"⟩]⟩ ⟨2, true, false⟩ (by decide) (by decide)
  refine ⟨h.1, ?_⟩
  have h2 := h.2
  rw [h2]
  decide

end GovRouting
